import Mathlib

/-!
Verification of the instance-lifecycle registry of the Alias Editor Plugin
(src/src/lib.rs). The plugin facade `AliasEditorPlugin` owns every editor
instance in a lock-guarded map keyed by monotonically allocated identifiers;
`create_editor` builds an editor bound to a resolved artifact path and
registers it, and `on_unload` clears the whole registry.

Modelling conventions: filesystem paths are lists of components; the host
context (filesystem answers and gpui panel construction) is a `Host` record of
functions; the `HashMap<usize, EditorStorage>` is an association list whose
insert drops any previous binding of the key; locking is atomic in the source
(each lock scope is a single map or counter operation), so state is threaded
functionally and the lock discipline is recorded by the event-trace function
`create_editor_events`.
-/

namespace AliasPlugin

/-- A filesystem path, as its list of components (`PathBuf`). -/
abbrev Path := List String

/-- `PathBuf::join` with a single component. -/
def Path.join (p : Path) (s : String) : Path := p ++ [s]

/-- Opaque host render context (the `window`/`cx` arguments), forwarded uninspected. -/
abbrev RenderContext := Nat

/-- Modelled from the spec: the error type of the external `plugin_editor_api` crate.
`EditorNotFound` carries the offending identifier; errors coming back from the
underlying editor object are opaque to this subsystem. -/
inductive PluginError where
  | EditorNotFound (editor_id : String)
  | delegated (msg : String)
  deriving DecidableEq, Repr

/-- Modelled from the spec: the underlying editor object (`visual_editor` module, not
under src/). It is constructible from a path and offers fallible save and reload
routines; the registry subsystem treats all of it as opaque. `path` records the
resolved path the object was constructed with. -/
structure AliasEditor where
  path : Path
  plugin_save : RenderContext → Except PluginError Unit
  plugin_reload : RenderContext → Except PluginError Unit

/-- `AliasEditorWrapper`: bridges the panel entity to the `EditorInstance` trait.
As in the source, it stores the panel entity and the `file_path` the plugin was
called with (the raw input, captured before resolution). The accessor
`fn file_path(&self)` returns the `file_path` field unchanged, so the structure
field is the accessor here; no operation ever mutates a wrapper. -/
structure AliasEditorWrapper where
  panel : AliasEditor
  file_path : Path

/-- `save` delegates to the underlying editor object through the panel entity and
returns its result as-is. -/
def AliasEditorWrapper.save (w : AliasEditorWrapper) (ctx : RenderContext) :
    Except PluginError Unit :=
  w.panel.plugin_save ctx

/-- `reload` delegates to the underlying editor object through the panel entity and
returns its result as-is. -/
def AliasEditorWrapper.reload (w : AliasEditorWrapper) (ctx : RenderContext) :
    Except PluginError Unit :=
  w.panel.plugin_reload ctx

/-- `is_dirty` is hard-coded to `false` in the source. -/
def AliasEditorWrapper.is_dirty (_ : AliasEditorWrapper) : Bool := false

/-- `EditorStorage`: the owned resource bundle kept in the registry — the shared
panel handle and the exclusively owned wrapper. -/
structure EditorStorage where
  panel : AliasEditor
  wrapper : AliasEditorWrapper

/-- `AliasEditorPlugin`: the registry map from identifier to owned storage, and the
next-identifier counter. Each field is behind its own mutex in the source. -/
structure AliasEditorPlugin where
  editors : List (Nat × EditorStorage)
  next_editor_id : Nat

/-- `impl Default`: empty registry, counter at zero. -/
def AliasEditorPlugin.default : AliasEditorPlugin :=
  { editors := [], next_editor_id := 0 }

/-- Metadata describing one offered editor (from the `plugin_editor_api` crate). -/
structure EditorMetadata where
  id : String
  display_name : String
  supported_file_types : List String

/-- The `editors()` trait method: the single declared editor of this plugin.
Renamed from `editors` because that name is taken by the registry field. -/
def AliasEditorPlugin.editors_list : List EditorMetadata :=
  [{ id := "alias-editor", display_name := "Alias Editor",
     supported_file_types := ["alias"] }]

/-- The host-provided capabilities consumed by `create_editor`: the filesystem query
`PathBuf::is_dir` and the gpui panel construction
`cx.new(AliasEditor::new_with_file ...)`. -/
structure Host where
  is_dir : Path → Bool
  new_with_file : Path → AliasEditor

/-- `HashMap::insert` on the registry map, modelled on an association list: the new
binding is added and any previous binding of the same key is dropped. -/
def hmInsert (m : List (Nat × EditorStorage)) (k : Nat) (v : EditorStorage) :
    List (Nat × EditorStorage) :=
  (k, v) :: m.filter (fun kv => kv.1 != k)

/-- The resolved artifact path: a directory is joined with the fixed marker filename
`alias.json`; any other path is used as-is. Inlined in the source as `actual_path`. -/
def actual_path (host : Host) (file_path : Path) : Path :=
  if host.is_dir file_path then Path.join file_path "alias.json" else file_path

/-- `create_editor`: on the declared identifier, resolve the path, construct the
panel, build the wrapper capturing the raw `file_path`, allocate the next
identifier, insert the storage bundle into the registry, and return the shared
panel handle together with the wrapper; on any other identifier, fail with
`EditorNotFound` and leave the state untouched. -/
def create_editor (host : Host) (st : AliasEditorPlugin) (editor_id : String)
    (file_path : Path) :
    AliasEditorPlugin × Except PluginError (AliasEditor × AliasEditorWrapper) :=
  if editor_id = "alias-editor" then
    let ap := actual_path host file_path
    let panel := host.new_with_file ap
    let wrapper : AliasEditorWrapper := { panel := panel, file_path := file_path }
    let id := st.next_editor_id
    let st1 : AliasEditorPlugin := { st with next_editor_id := st.next_editor_id + 1 }
    let st2 : AliasEditorPlugin :=
      { st1 with editors := hmInsert st1.editors id { panel := panel, wrapper := wrapper } }
    (st2, Except.ok (panel, wrapper))
  else
    (st, Except.error (PluginError.EditorNotFound editor_id))

/-- `on_load`: logs only, no state mutation. -/
def on_load (st : AliasEditorPlugin) : AliasEditorPlugin := st

/-- `on_unload`: clears the registry map and reports (logs) how many instances were
released. Only the `editors` field is touched. -/
def on_unload (st : AliasEditorPlugin) : AliasEditorPlugin × Nat :=
  ({ st with editors := [] }, st.editors.length)

/-- The observable side effects of a `create_editor` call, in the statement order of
its body: panel construction, wrapper construction, allocator lock / read-increment /
unlock, registry lock / insert / unlock. Empty on the `EditorNotFound` path, which
performs none of them. -/
inductive Event where
  | constructPanel
  | constructWrapper
  | lockAllocator
  | allocate (id : Nat)
  | unlockAllocator
  | lockRegistry
  | insertEntry (id : Nat)
  | unlockRegistry
  deriving DecidableEq, Repr

/-- Trace of `create_editor` side effects in the order the source performs them. -/
def create_editor_events (st : AliasEditorPlugin) (editor_id : String) : List Event :=
  if editor_id = "alias-editor" then
    [Event.constructPanel, Event.constructWrapper,
     Event.lockAllocator, Event.allocate st.next_editor_id, Event.unlockAllocator,
     Event.lockRegistry, Event.insertEntry st.next_editor_id, Event.unlockRegistry]
  else []

/-- Whether an event is part of resource-bundle construction. -/
def Event.isConstruction : Event → Bool
  | Event.constructPanel => true
  | Event.constructWrapper => true
  | _ => false

/-- Whether an event is the identity allocation. -/
def Event.isAllocation : Event → Bool
  | Event.allocate _ => true
  | _ => false

/-- Whether an event is the registry insertion. -/
def Event.isRegistryInsert : Event → Bool
  | Event.insertEntry _ => true
  | _ => false

/-- Run a sequence of successful `create_editor` calls (all with the declared
identifier), threading the plugin state. -/
def runCreates (host : Host) (st : AliasEditorPlugin) : List Path → AliasEditorPlugin
  | [] => st
  | p :: ps => runCreates host (create_editor host st "alias-editor" p).1 ps

/-- The identities allocated by such a sequence of calls, in call order. -/
def allocIds (host : Host) (st : AliasEditorPlugin) : List Path → List Nat
  | [] => []
  | p :: ps => st.next_editor_id :: allocIds host (create_editor host st "alias-editor" p).1 ps

/-- Observation: the `file_path()` of the control handle returned by a
`create_editor` call, when the call succeeds. -/
def createdWrapperPath (host : Host) (st : AliasEditorPlugin) (editor_id : String)
    (file_path : Path) : Option Path :=
  match (create_editor host st editor_id file_path).2 with
  | Except.ok (_, w) => some w.file_path
  | Except.error _ => none

/-- Registry invariant: every stored key is below the allocator counter. Holds for
the default state and is preserved by every operation. -/
def keysBelow (st : AliasEditorPlugin) : Prop :=
  ∀ kv ∈ st.editors, kv.1 < st.next_editor_id

/-- A concrete host whose filesystem reports every path as a directory. -/
def hostDir : Host :=
  { is_dir := fun _ => true
    new_with_file := fun p =>
      { path := p
        plugin_save := fun _ => Except.ok ()
        plugin_reload := fun _ => Except.ok () } }

/-- A concrete host whose filesystem reports no path as a directory. -/
def hostFile : Host :=
  { hostDir with is_dir := fun _ => false }

/-- A concrete underlying editor whose save and reload fail. -/
def failingEditor : AliasEditor :=
  { path := []
    plugin_save := fun _ => Except.error (PluginError.delegated "disk full")
    plugin_reload := fun _ => Except.error (PluginError.delegated "parse failed") }

/-- A wrapper over `failingEditor`. -/
def failingWrapper : AliasEditorWrapper :=
  { panel := failingEditor, file_path := [] }

lemma create_next (host : Host) (st : AliasEditorPlugin) (p : Path) :
    (create_editor host st "alias-editor" p).1.next_editor_id = st.next_editor_id + 1 := rfl

lemma create_editors_eq (host : Host) (st : AliasEditorPlugin) (p : Path) :
    (create_editor host st "alias-editor" p).1.editors =
      hmInsert st.editors st.next_editor_id
        { panel := host.new_with_file (actual_path host p),
          wrapper := { panel := host.new_with_file (actual_path host p), file_path := p } } :=
  rfl

lemma hmInsert_fresh (m : List (Nat × EditorStorage)) (k : Nat) (v : EditorStorage)
    (h : ∀ kv ∈ m, kv.1 ≠ k) : hmInsert m k v = (k, v) :: m := by
  unfold hmInsert
  congr 1
  refine List.filter_eq_self.mpr ?_
  intro a ha
  simpa using h a ha

lemma keysBelow_default : keysBelow AliasEditorPlugin.default := by
  intro kv hkv
  simp [AliasEditorPlugin.default] at hkv

lemma keysBelow_fresh {st : AliasEditorPlugin} (h : keysBelow st) :
    ∀ kv ∈ st.editors, kv.1 ≠ st.next_editor_id :=
  fun kv hkv => Nat.ne_of_lt (h kv hkv)

lemma create_editors_cons (host : Host) (st : AliasEditorPlugin) (p : Path)
    (h : keysBelow st) :
    (create_editor host st "alias-editor" p).1.editors =
      (st.next_editor_id,
        { panel := host.new_with_file (actual_path host p),
          wrapper := { panel := host.new_with_file (actual_path host p), file_path := p } }) ::
        st.editors := by
  rw [create_editors_eq, hmInsert_fresh _ _ _ (keysBelow_fresh h)]

lemma keysBelow_create (host : Host) (st : AliasEditorPlugin) (p : Path)
    (h : keysBelow st) : keysBelow (create_editor host st "alias-editor" p).1 := by
  intro kv hkv
  rw [create_editors_cons host st p h] at hkv
  rw [create_next]
  rcases List.mem_cons.mp hkv with h1 | h2
  · subst h1; exact Nat.lt_succ_self _
  · exact Nat.lt_succ_of_lt (h kv h2)

lemma create_length (host : Host) (st : AliasEditorPlugin) (p : Path) (h : keysBelow st) :
    (create_editor host st "alias-editor" p).1.editors.length = st.editors.length + 1 := by
  rw [create_editors_cons host st p h]
  rfl

lemma runCreates_next (host : Host) :
    ∀ (paths : List Path) (st : AliasEditorPlugin),
      (runCreates host st paths).next_editor_id = st.next_editor_id + paths.length := by
  intro paths
  induction paths with
  | nil => intro st; rfl
  | cons p ps ih =>
      intro st
      simp only [runCreates, List.length_cons]
      rw [ih, create_next]
      omega

lemma keysBelow_run (host : Host) :
    ∀ (paths : List Path) (st : AliasEditorPlugin), keysBelow st →
      keysBelow (runCreates host st paths) := by
  intro paths
  induction paths with
  | nil => intro st h; exact h
  | cons p ps ih =>
      intro st h
      simp only [runCreates]
      exact ih _ (keysBelow_create host st p h)

lemma runCreates_length (host : Host) :
    ∀ (paths : List Path) (st : AliasEditorPlugin), keysBelow st →
      (runCreates host st paths).editors.length = st.editors.length + paths.length := by
  intro paths
  induction paths with
  | nil => intro st h; rfl
  | cons p ps ih =>
      intro st h
      simp only [runCreates, List.length_cons]
      rw [ih _ (keysBelow_create host st p h), create_length host st p h]
      omega

lemma allocIds_eq_range (host : Host) :
    ∀ (paths : List Path) (st : AliasEditorPlugin),
      allocIds host st paths = List.range' st.next_editor_id paths.length := by
  intro paths
  induction paths with
  | nil => intro st; rfl
  | cons p ps ih =>
      intro st
      simp only [allocIds, List.length_cons, List.range'_succ]
      rw [ih, create_next]

lemma mem_range1_bounds :
    ∀ (n s m : Nat), m ∈ List.range' s n → s ≤ m ∧ m < s + n := by
  intro n
  induction n with
  | zero => intro s m hm; simp [List.range'] at hm
  | succ k ih =>
      intro s m hm
      rw [List.range'_succ] at hm
      rcases List.mem_cons.mp hm with h1 | h2
      · subst h1; omega
      · have := ih (s + 1) m h2
        omega

lemma pairwise_range1 : ∀ (n s : Nat), (List.range' s n).Pairwise (· < ·) := by
  intro n
  induction n with
  | zero => intro s; simp [List.range']
  | succ k ih =>
      intro s
      rw [List.range'_succ]
      refine List.Pairwise.cons ?_ (ih (s + 1))
      intro b hb
      have := mem_range1_bounds k (s + 1) b hb
      omega

lemma runCreates_keys (host : Host) :
    ∀ (paths : List Path) (st : AliasEditorPlugin), keysBelow st →
      (runCreates host st paths).editors.map Prod.fst =
        (allocIds host st paths).reverse ++ st.editors.map Prod.fst := by
  intro paths
  induction paths with
  | nil => intro st h; simp [runCreates, allocIds]
  | cons p ps ih =>
      intro st h
      simp only [runCreates, allocIds, List.reverse_cons, List.append_assoc]
      rw [ih _ (keysBelow_create host st p h)]
      rw [create_editors_cons host st p h]
      simp

/-- C1 (unload totality): after K successful creations from the initial state,
`on_unload` empties the registry and reports count K; a second `on_unload` call on
the already-empty registry is safe and reports count 0. -/
theorem unload_totality (host : Host) (paths : List Path) :
    (on_unload (runCreates host AliasEditorPlugin.default paths)).2 = paths.length ∧
    (on_unload (runCreates host AliasEditorPlugin.default paths)).1.editors = [] ∧
    (on_unload (on_unload (runCreates host AliasEditorPlugin.default paths)).1).2 = 0 := by
  refine ⟨?_, rfl, rfl⟩
  show (runCreates host AliasEditorPlugin.default paths).editors.length = paths.length
  rw [runCreates_length host paths AliasEditorPlugin.default keysBelow_default]
  simp [AliasEditorPlugin.default]

/-- C2 (identity uniqueness and monotonicity): the identities allocated by a sequence
of successful `create_editor` calls are strictly increasing in call order (hence each
exceeds all previous ones) and pairwise distinct; from the initial state they are
exactly the keys stored in the registry. -/
theorem create_editor_identities (host : Host) (st : AliasEditorPlugin)
    (paths : List Path) :
    (allocIds host st paths).Pairwise (· < ·) ∧
    (allocIds host st paths).Nodup ∧
    (runCreates host AliasEditorPlugin.default paths).editors.map Prod.fst =
      (allocIds host AliasEditorPlugin.default paths).reverse := by
  have hp : (allocIds host st paths).Pairwise (· < ·) := by
    rw [allocIds_eq_range]
    exact pairwise_range1 paths.length st.next_editor_id
  refine ⟨hp, List.Pairwise.imp (fun h => Nat.ne_of_lt h) hp, ?_⟩
  rw [runCreates_keys host paths AliasEditorPlugin.default keysBelow_default]
  simp [AliasEditorPlugin.default]

/-- C3 (routing correctness): on an identifier outside the set declared by
`editors()`, `create_editor` fails with `EditorNotFound` carrying exactly that
identifier, leaves the whole state untouched, and in particular leaves the registry
size unchanged. -/
theorem create_editor_not_found (host : Host) (st : AliasEditorPlugin)
    (editor_id : String) (file_path : Path)
    (h : ∀ m ∈ AliasEditorPlugin.editors_list, editor_id ≠ m.id) :
    create_editor host st editor_id file_path =
      (st, Except.error (PluginError.EditorNotFound editor_id)) ∧
    (create_editor host st editor_id file_path).1.editors.length =
      st.editors.length := by
  have hne : editor_id ≠ "alias-editor" :=
    h { id := "alias-editor", display_name := "Alias Editor",
        supported_file_types := ["alias"] } (by simp [AliasEditorPlugin.editors_list])
  constructor
  · simp [create_editor, hne]
  · simp [create_editor, hne]

/-- Witness for C3 at the concrete identifier "bogus". -/
theorem create_editor_not_found_witness :
    (∀ m ∈ AliasEditorPlugin.editors_list, "bogus" ≠ m.id) ∧
    create_editor hostDir AliasEditorPlugin.default "bogus" ["x"] =
      (AliasEditorPlugin.default,
        Except.error (PluginError.EditorNotFound "bogus")) :=
  ⟨by decide,
   (create_editor_not_found hostDir AliasEditorPlugin.default "bogus" ["x"]
      (by decide)).1⟩

/-- C4 (registry size invariant): a successful `create_editor` call grows the
registry by exactly one entry, and after K successful creations from the initial
state (and no unload) the registry holds exactly K entries. -/
theorem registry_size_invariant (host : Host) (st : AliasEditorPlugin) (p : Path)
    (paths : List Path) (h : keysBelow st) :
    (create_editor host st "alias-editor" p).1.editors.length =
      st.editors.length + 1 ∧
    (runCreates host AliasEditorPlugin.default paths).editors.length =
      paths.length := by
  refine ⟨create_length host st p h, ?_⟩
  rw [runCreates_length host paths AliasEditorPlugin.default keysBelow_default]
  simp [AliasEditorPlugin.default]

/-- Witness for C4 at the initial state. -/
theorem registry_size_invariant_witness :
    keysBelow AliasEditorPlugin.default ∧
    (create_editor hostDir AliasEditorPlugin.default "alias-editor"
        ["x"]).1.editors.length =
      AliasEditorPlugin.default.editors.length + 1 :=
  ⟨keysBelow_default,
   (registry_size_invariant hostDir AliasEditorPlugin.default ["x"] []
      keysBelow_default).1⟩

/-- C5 (path resolution): a directory input resolves to the directory joined with the
fixed marker filename `alias.json`; any other input resolves to itself. -/
theorem path_resolution (host : Host) (p : Path) :
    (host.is_dir p = true → actual_path host p = p ++ ["alias.json"]) ∧
    (host.is_dir p = false → actual_path host p = p) := by
  constructor
  · intro h
    simp [actual_path, Path.join, h]
  · intro h
    simp [actual_path, h]

/-- Witness for C5 on a directory host and a file host. -/
theorem path_resolution_witness :
    (hostDir.is_dir ["d"] = true ∧ actual_path hostDir ["d"] = ["d", "alias.json"]) ∧
    (hostFile.is_dir ["f"] = false ∧ actual_path hostFile ["f"] = ["f"]) :=
  ⟨⟨rfl, (path_resolution hostDir ["d"]).1 rfl⟩,
   ⟨rfl, (path_resolution hostFile ["f"]).2 rfl⟩⟩

/-- C6 counterexample: for a directory input the returned control handle reports the
raw input directory, not the directory joined with the marker filename, so
`file_path()` does not return the resolved artifact path. -/
theorem file_path_counterexample :
    hostDir.is_dir ["x", "MyAlias.alias"] = true ∧
    createdWrapperPath hostDir AliasEditorPlugin.default "alias-editor"
        ["x", "MyAlias.alias"] =
      some ["x", "MyAlias.alias"] ∧
    createdWrapperPath hostDir AliasEditorPlugin.default "alias-editor"
        ["x", "MyAlias.alias"] ≠
      some (actual_path hostDir ["x", "MyAlias.alias"]) := by
  refine ⟨rfl, rfl, ?_⟩
  decide

/-- C6 (amended): the control handle returned by a successful `create_editor` call
reports the raw input path bound at construction, which coincides with the resolved
artifact path exactly when the input was not a directory; the wrapper is never
mutated, so the value is fixed for the handle's lifetime. -/
theorem file_path_returns_input (host : Host) (st : AliasEditorPlugin) (p : Path) :
    createdWrapperPath host st "alias-editor" p = some p ∧
    (createdWrapperPath host st "alias-editor" p = some (actual_path host p) ↔
      host.is_dir p = false) := by
  have h1 : createdWrapperPath host st "alias-editor" p = some p := rfl
  refine ⟨h1, ?_⟩
  rw [h1]
  constructor
  · intro h3
    by_contra hb
    have hx : host.is_dir p = true := by
      cases hy : host.is_dir p
      · exact absurd hy hb
      · rfl
    have h4 : p = actual_path host p := by injection h3
    have h5 := congrArg List.length h4
    simp [actual_path, hx, Path.join] at h5
  · intro h3
    simp [actual_path, h3]

/-- Witness for the amended C6 on a file (non-directory) input. -/
theorem file_path_returns_input_witness :
    createdWrapperPath hostFile AliasEditorPlugin.default "alias-editor" ["f"] =
      some ["f"] :=
  (file_path_returns_input hostFile AliasEditorPlugin.default ["f"]).1

/-- C7 counterexample: in the side-effect trace of a successful call the identity
allocation does not precede construction — construction events come first — so the
claimed order (allocate first, construct second) is false. -/
theorem effect_order_counterexample :
    ¬ ((create_editor_events AliasEditorPlugin.default "alias-editor").findIdx
          Event.isAllocation <
        (create_editor_events AliasEditorPlugin.default "alias-editor").findIdx
          Event.isConstruction) := by
  decide

/-- C7 (amended): in every successful `create_editor` call the resource bundle is
fully constructed first, the identity is allocated second, and the registry lock is
acquired and the entry inserted third; from the moment the registry lock is taken no
construction happens, so the registry lock is never held during construction. -/
theorem create_editor_effect_order (st : AliasEditorPlugin) (editor_id : String)
    (h : editor_id = "alias-editor") :
    create_editor_events st editor_id =
      [Event.constructPanel, Event.constructWrapper, Event.lockAllocator,
       Event.allocate st.next_editor_id, Event.unlockAllocator, Event.lockRegistry,
       Event.insertEntry st.next_editor_id, Event.unlockRegistry] ∧
    (create_editor_events st editor_id).findIdx Event.isConstruction <
      (create_editor_events st editor_id).findIdx Event.isAllocation ∧
    (create_editor_events st editor_id).findIdx Event.isAllocation <
      (create_editor_events st editor_id).findIdx (fun e => e == Event.lockRegistry) ∧
    (create_editor_events st editor_id).findIdx (fun e => e == Event.lockRegistry) <
      (create_editor_events st editor_id).findIdx Event.isRegistryInsert ∧
    (∀ e ∈ (create_editor_events st editor_id).drop
        ((create_editor_events st editor_id).findIdx (fun e => e == Event.lockRegistry)),
      Event.isConstruction e = false) := by
  subst h
  refine ⟨rfl, ?_, ?_, ?_, ?_⟩
  · show (0 : Nat) < 3
    decide
  · show (3 : Nat) < 5
    decide
  · show (5 : Nat) < 6
    decide
  · intro e he
    have he2 : e ∈ [Event.lockRegistry, Event.insertEntry st.next_editor_id,
        Event.unlockRegistry] := he
    simp only [List.mem_cons, List.not_mem_nil, or_false] at he2
    rcases he2 with h1 | h1 | h1 <;> subst h1 <;> rfl

/-- Witness for the amended C7 at the initial state. -/
theorem create_editor_effect_order_witness :
    "alias-editor" = "alias-editor" ∧
    create_editor_events AliasEditorPlugin.default "alias-editor" =
      [Event.constructPanel, Event.constructWrapper, Event.lockAllocator,
       Event.allocate 0, Event.unlockAllocator, Event.lockRegistry,
       Event.insertEntry 0, Event.unlockRegistry] :=
  ⟨rfl,
   (create_editor_effect_order AliasEditorPlugin.default "alias-editor" rfl).1⟩

/-- C8 (delegation): the control handle's save and reload return exactly the result
of the underlying editor object's save and reload routines; in particular any error
value is propagated unchanged. -/
theorem save_reload_delegation (w : AliasEditorWrapper) (ctx : RenderContext) :
    w.save ctx = w.panel.plugin_save ctx ∧
    w.reload ctx = w.panel.plugin_reload ctx ∧
    (∀ e, w.panel.plugin_save ctx = Except.error e → w.save ctx = Except.error e) ∧
    (∀ e, w.panel.plugin_reload ctx = Except.error e →
      w.reload ctx = Except.error e) :=
  ⟨rfl, rfl, fun _ h => h, fun _ h => h⟩

/-- Witness for C8 on a wrapper whose underlying save fails. -/
theorem save_reload_delegation_witness :
    failingWrapper.panel.plugin_save 0 =
      Except.error (PluginError.delegated "disk full") ∧
    AliasEditorWrapper.save failingWrapper 0 =
      Except.error (PluginError.delegated "disk full") :=
  ⟨rfl,
   (save_reload_delegation failingWrapper 0).2.2.1
     (PluginError.delegated "disk full") rfl⟩

/-- C9 (dirty-state stub): `is_dirty` returns false on every control handle in every
state, regardless of the underlying editor or of prior calls. -/
theorem is_dirty_always_false (w : AliasEditorWrapper) :
    AliasEditorWrapper.is_dirty w = false := rfl

/-- C10 (unload frame): `on_unload` mutates only the registry map and leaves the
identity counter unchanged, so an identity allocated after an unload is strictly
greater than every identity allocated before it. -/
theorem on_unload_frame (host host2 : Host) (st : AliasEditorPlugin)
    (paths1 paths2 : List Path) :
    (on_unload st).1 = { st with editors := [] } ∧
    (on_unload st).1.next_editor_id = st.next_editor_id ∧
    (∀ a ∈ allocIds host AliasEditorPlugin.default paths1,
      ∀ b ∈ allocIds host2
          (on_unload (runCreates host AliasEditorPlugin.default paths1)).1 paths2,
        a < b) := by
  refine ⟨rfl, rfl, ?_⟩
  intro a ha b hb
  rw [allocIds_eq_range] at ha hb
  have h1 := mem_range1_bounds paths1.length AliasEditorPlugin.default.next_editor_id a ha
  have h2 := mem_range1_bounds paths2.length _ b hb
  have h3 : (on_unload (runCreates host AliasEditorPlugin.default paths1)).1.next_editor_id =
      AliasEditorPlugin.default.next_editor_id + paths1.length := by
    show (runCreates host AliasEditorPlugin.default paths1).next_editor_id = _
    exact runCreates_next host paths1 AliasEditorPlugin.default
  rw [h3] at h2
  have h4 : AliasEditorPlugin.default.next_editor_id = 0 := rfl
  omega

/-- Witness for C10: identity 0 before an unload, identity 1 after it. -/
theorem on_unload_frame_witness :
    (0 ∈ allocIds hostDir AliasEditorPlugin.default [["p"]]) ∧
    (1 ∈ allocIds hostDir
        (on_unload (runCreates hostDir AliasEditorPlugin.default [["p"]])).1 [["q"]]) ∧
    0 < 1 :=
  ⟨by decide, by decide,
   (on_unload_frame hostDir hostDir AliasEditorPlugin.default [["p"]] [["q"]]).2.2 0
     (by decide) 1 (by decide)⟩

end AliasPlugin
